import Mathlib

/-!
Verification of the `observe_sentry` telemetry adapter
(`src/observe_sentry/__init__.py`) against its specification.

The development shallowly embeds the module:

* Python `dict` values (insertion-ordered, last-writer-wins) become
  association lists with update-in-place semantics (`dictSet`, `dictGet`);
* Python `str(int)` and `int(str)` become `pyStrOfInt` / `pyIntOfString`
  over decimal digit strings;
* the Sentry backend state consumed by the module (the context-scoped
  current span stack, span creation, tags, status, exception capture) is
  modelled as an explicit `TraceState` record, and the module's callbacks
  `begin_sentry_trace` / `_finish` become state transformers on it;
* fallible Python code returns `Except` / an explicit outcome value.
-/

namespace ObserveSentry

/-! ## Python dict model (insertion order, last-writer-wins) -/

/-- A Python `dict[str, str]` as an insertion-ordered association list.
Keys are unique in any list built by `dictSet` from the empty dict. -/
abbrev Tags := List (String × String)

/-- `d.get(k)`: the value stored at `k`, if any. -/
def dictGet (d : Tags) (k : String) : Option String :=
  (d.find? (fun p => p.1 = k)).map (fun p => p.2)

/-- `d[k] = v`: update in place when the key exists (keeping its position,
as a Python dict does), append otherwise. -/
def dictSet (d : Tags) (k v : String) : Tags :=
  if d.any (fun p => p.1 = k) then
    d.map (fun p => if p.1 = k then (k, v) else p)
  else
    d ++ [(k, v)]

/-! ## Python `str(int)` / `int(str)` model

`count_calls` stores counters as decimal strings (`str(current_count + 1)`)
and reads them back with `int(...)`.  We model the two conversions over
decimal digit strings; `int` raises `ValueError` on a non-numeric string,
which the model renders as `none`. -/

/-- The ASCII character of a decimal digit. -/
def digitChar (d : Nat) : Char := Char.ofNat (48 + d)

/-- The decimal digit of an ASCII character, if it is one. -/
def charDigit (c : Char) : Option Nat :=
  if 48 ≤ c.toNat ∧ c.toNat ≤ 57 then some (c.toNat - 48) else none

/-- Reads every character as a decimal digit, failing on the first
non-digit. -/
def charsToDigits : List Char → Option (List Nat)
  | [] => some []
  | c :: cs =>
    match charDigit c, charsToDigits cs with
    | some d, some ds => some (d :: ds)
    | _, _ => none

/-- Value of a most-significant-first digit list. -/
def valMSF (ds : List Nat) : Nat := ds.foldl (fun a d => 10 * a + d) 0

/-- `str(n)` for a natural number: its decimal digit string. -/
def natStr (n : Nat) : String :=
  if n = 0 then "0" else String.mk (((Nat.digits 10 n).reverse).map digitChar)

/-- `str(i)` for a Python int: decimal digits with a leading `-` when
negative. -/
def pyStrOfInt (i : Int) : String :=
  if i < 0 then "-" ++ natStr i.natAbs else natStr i.toNat

/-- Parses a non-empty all-digit character list as a natural number. -/
def parseDigitsNat (l : List Char) : Option Nat :=
  match l, charsToDigits l with
  | _ :: _, some ds => some (valMSF ds)
  | _, _ => none

/-- `int(s)` for a string `s`: an optional sign followed by at least one
decimal digit; anything else raises `ValueError` (modelled as `none`). -/
def pyIntOfString (s : String) : Option Int :=
  match s.data with
  | [] => none
  | c :: cs =>
    if c = '-' then (parseDigitsNat cs).map (fun n => -(n : Int))
    else if c = '+' then (parseDigitsNat cs).map (fun n => (n : Int))
    else (parseDigitsNat (c :: cs)).map (fun n => (n : Int))

/-! ## `call_count_tag_format` and `count_calls` -/

/-- `"{func} calls"` (line 34). -/
def call_count_tag_format (funcName : String) : String := funcName ++ " calls"

/-- Exceptions the `count_calls` wrapper body can raise. -/
inductive PyErr where
  | attributeError (msg : String)
  | valueError (msg : String)
deriving DecidableEq, Repr

/-- The tag-update prelude of `count_calls._wrapped_func` (lines 45–49).
`span` is `sentry_sdk.Hub.current.scope.span`, which the backend reports as
`None` when no span is active (the module itself relies on that encoding at
line 200); its `_tags` dict is the only part of the span this code touches.
`None._tags` raises `AttributeError`; `int(...)` of a stored non-numeric
string raises `ValueError`; otherwise the incremented count is written back
as a string. -/
def count_calls_step (tagId : String) (span : Option Tags) : Except PyErr Tags :=
  match span with
  | none => .error (.attributeError "NoneType object has no attribute _tags")
  | some tags =>
    match dictGet tags tagId with
    | none => .ok (dictSet tags tagId (pyStrOfInt (0 + 1)))
    | some s =>
      match pyIntOfString s with
      | none => .error (.valueError "invalid literal for int() with base 10")
      | some n => .ok (dictSet tags tagId (pyStrOfInt (n + 1)))

/-- The whole of `count_calls._wrapped_func` (lines 45–50): tag update, then
the wrapped function runs and its result is returned unchanged. -/
def count_calls_wrapped {α : Type} (tagId : String) (span : Option Tags)
    (body : α) : Except PyErr (Tags × α) :=
  (count_calls_step tagId span).map (fun t => (t, body))

/-- `n` consecutive calls of a `count_calls`-wrapped function while the
span holding `tags` stays active. -/
def count_calls_iter (tagId : String) : Nat → Tags → Except PyErr Tags
  | 0, tags => .ok tags
  | n + 1, tags =>
    match count_calls_iter tagId n tags with
    | .ok t => count_calls_step tagId (some t)
    | .error e => .error e

/-! ## `_telemetry` (lines 54–70) -/

/-- Result of a Python call: a value or a raised exception. -/
inductive PyResult (α : Type) where
  | ok : α → PyResult α
  | exc : String → PyResult α
deriving DecidableEq, Repr

/-- A log record: (level, message). -/
abbrev LogRecord := String × String

/-- `_telemetry._wrapped_func` (lines 60–69): run the body; on an exception
re-raise when `_RAISES_EXCEPTIONS` is set, otherwise log at error level and
fall off the end of the wrapper (returning `None`). -/
def _telemetry {α : Type} (raisesExceptions : Bool) (funcName : String)
    (body : PyResult α) : PyResult (Option α) × List LogRecord :=
  match body with
  | .ok a => (.ok (some a), [])
  | .exc e =>
    if raisesExceptions then (.exc e, [])
    else (.ok none,
      [("error", "Internal telemetry function failed: " ++ funcName)])

/-! ## The event-to-trace binding engine

`EventIntegration.begin_sentry_trace` (lines 185–233) reacts to an event's
"about to run" phase and arms a `_finish` callback on the event's `exited`
signal.  The Sentry backend state it reads and writes — the context-scoped
current-span stack, the created spans, the connected `exited` callbacks and
the captured exceptions — is modelled as one explicit `TraceState` record
(the backend operations used are the ones listed in the spec's external
interface: start transaction / start child / set tag / set status / capture
exception / current span). -/

/-- The event definition attributes the module consumes: `name` and
`elevated`. -/
structure EventDef where
  name : String
  elevated : Bool
deriving DecidableEq, Repr

/-- The per-invocation `EventData` attributes the module consumes.  `id`
models Python object identity (a fresh object per invocation); `tags` is
the invocation's tag dict as it stands when the `exited` signal fires. -/
structure EventData where
  id : Nat
  event : EventDef
  tags : Tags
deriving DecidableEq, Repr

/-- A backend span/transaction: trace-tree node with ids, operation name,
tags, terminal status and a finished flag. -/
structure Span where
  span_id : Nat
  trace_id : Nat
  parent_span_id : Option Nat
  op : String
  spanName : Option String
  isTransaction : Bool
  tags : Tags
  status : Option String
  finished : Bool
deriving DecidableEq, Repr

/-- The `_finish` closure armed for one invocation: it captures the
invocation object (`enterId`, by identity) and the span it opened. -/
structure Finalizer where
  enterId : Nat
  spanId : Nat
deriving DecidableEq, Repr

/-- Observable backend operations, in the order they are performed. -/
inductive Effect where
  | started (span_id : Nat) (isTransaction : Bool)
  | setStatus (span_id : Nat) (s : String)
  | capturedException (e : String)
  | setTag (span_id : Nat) (k v : String)
  | exitSpan (span_id : Nat)
  | disconnected (enterId : Nat)
deriving DecidableEq, Repr

/-- Backend and signal state: the context's active-span stack (`scope`,
head = `Hub.current.scope.span`), all created spans keyed by id, the
callbacks connected to the event's `exited` signal, captured exceptions,
the append-only effect log, and a fresh-id counter. -/
structure TraceState where
  scope : List Nat
  spans : List (Nat × Span)
  connected : List Finalizer
  captured : List String
  effects : List Effect
  fresh : Nat
deriving DecidableEq, Repr

/-- Lookup of a span by id. -/
def findSpan (st : TraceState) (sid : Nat) : Option Span :=
  (st.spans.find? (fun p => p.1 = sid)).map (fun p => p.2)

/-- `sentry_sdk.Hub.current.scope.span` (line 196): the top of the
context's active-span stack, `None` when the stack is empty. -/
def currentSpan (st : TraceState) : Option Span :=
  st.scope.head?.bind (findSpan st)

/-- The three-way span-selection policy of lines 200–210, as the span the
selected backend call builds: no current span ⇒ fresh root transaction
(`op`/`name` = event name); current span and `elevated` ⇒ new root
transaction with the current span's `trace_id` and the current span's
`span_id` as `parent_span_id`; otherwise ⇒ `current.start_child(op=name)`,
a non-transaction child span. -/
def newSpanFor (current : Option Span) (event : EventDef) (sid tid : Nat) :
    Span :=
  match current with
  | none =>
    { span_id := sid, trace_id := tid, parent_span_id := none,
      op := event.name, spanName := some event.name, isTransaction := true,
      tags := [], status := none, finished := false }
  | some cur =>
    if event.elevated then
      { span_id := sid, trace_id := cur.trace_id,
        parent_span_id := some cur.span_id,
        op := event.name, spanName := some event.name, isTransaction := true,
        tags := [], status := none, finished := false }
    else
      { span_id := sid, trace_id := cur.trace_id,
        parent_span_id := some cur.span_id,
        op := event.name, spanName := none, isTransaction := false,
        tags := [], status := none, finished := false }

/-- `begin_sentry_trace` (lines 187–233): read the current span, create the
span the policy selects, `__enter__` it (push it on the context stack), and
connect a `_finish` finalizer for this invocation to the event's `exited`
signal. -/
def begin_sentry_trace (st : TraceState) (enter_event_data : EventData) :
    TraceState :=
  let sp := newSpanFor (currentSpan st) enter_event_data.event st.fresh
    (st.fresh + 1)
  { scope := sp.span_id :: st.scope,
    spans := (sp.span_id, sp) :: st.spans,
    connected := st.connected
      ++ [{ enterId := enter_event_data.id, spanId := sp.span_id }],
    captured := st.captured,
    effects := st.effects ++ [Effect.started sp.span_id sp.isTransaction],
    fresh := st.fresh + 2 }

/-- Applies `f` to the span with id `sid`. -/
def updateSpan (st : TraceState) (sid : Nat) (f : Span → Span) : TraceState :=
  { st with spans := st.spans.map (fun p => if p.1 = sid then (p.1, f p.2) else p) }

/-- Appends one record to the effect log. -/
def logEffect (st : TraceState) (e : Effect) : TraceState :=
  { st with effects := st.effects ++ [e] }

/-- Lines 228–229: `for tag, tag_value in exit_event_data.tags.items():
transaction.set_tag(tag, tag_value)`. -/
def flushTags (st : TraceState) (sid : Nat) (tags : Tags) : TraceState :=
  tags.foldl
    (fun s p =>
      logEffect
        (updateSpan s sid (fun sp => { sp with tags := dictSet sp.tags p.1 p.2 }))
        (Effect.setTag sid p.1 p.2))
    st

/-- Lines 221–227 of `_finish`: `sys.exc_info()`; if no exception is
active set the span status to `"ok"`, otherwise
`sentry_sdk.capture_exception(err)`. -/
def statusOrCapture (st : TraceState) (sid : Nat) (exc : Option String) :
    TraceState :=
  match exc with
  | none =>
    logEffect (updateSpan st sid (fun sp => { sp with status := some "ok" }))
      (Effect.setStatus sid "ok")
  | some e =>
    logEffect { st with captured := st.captured ++ [e] }
      (Effect.capturedException e)

/-- Line 230 of `_finish`: `transaction.__exit__(*exc_info)` — finish the
span and pop it from the context's active-span stack. -/
def exitSpanStep (st : TraceState) (sid : Nat) : TraceState :=
  let st' := updateSpan st sid (fun sp => { sp with finished := true })
  logEffect { st' with scope := st'.scope.erase sid } (Effect.exitSpan sid)

/-- Line 231 of `_finish`: `event.exited.disconnect(_finish)` — this
invocation's finalizer leaves the signal's callback list. -/
def disconnectStep (st : TraceState) (enterId : Nat) : TraceState :=
  logEffect
    { st with connected := st.connected.filter (fun g => g.enterId != enterId) }
    (Effect.disconnected enterId)

/-- `_finish` (lines 213–231) for the finalizer `fin` armed by one
invocation, fired with `exit_event_data` while `exc` is the active
exception (`sys.exc_info()[1]`).  The identity guard returns immediately on
a foreign invocation object; otherwise: status/capture, tag flush,
`transaction.__exit__` (finish the span and pop it from the context
stack), then `event.exited.disconnect(_finish)`.  The returned exception
is unchanged: the callback neither raises nor handles the application
exception, and the span's `__exit__` does not suppress it. -/
def _finish (st : TraceState) (fin : Finalizer) (exit_event_data : EventData)
    (exc : Option String) : TraceState × Option String :=
  if fin.enterId ≠ exit_event_data.id then (st, exc)
  else
    (disconnectStep
      (exitSpanStep
        (flushTags (statusOrCapture st fin.spanId exc) fin.spanId
          exit_event_data.tags)
        fin.spanId)
      fin.enterId, exc)

/-- Emission of the event's `exited` signal: every connected callback is
called in connection order with the same `exit_event_data`. -/
def emitExited (st : TraceState) (exit_event_data : EventData)
    (exc : Option String) : TraceState × Option String :=
  st.connected.foldl (fun acc fin => _finish acc.1 fin exit_event_data acc.2)
    (st, exc)

/-! ## Concrete two-level self-recursive run (spec §8, claim about
recursion)

An event calls itself once: the outer invocation (object identity 1)
enters, the inner one (identity 2) enters, the inner one exits, the outer
one exits.  Both invocations set a tag at their own level only. -/

/-- A non-elevated event that invokes itself. -/
def recEventDef : EventDef := { name := "recurse", elevated := false }

/-- The outer invocation's `EventData`, with its own tag. -/
def outerData : EventData :=
  { id := 1, event := recEventDef, tags := [("level", "outer")] }

/-- The inner invocation's `EventData`, a distinct object. -/
def innerData : EventData :=
  { id := 2, event := recEventDef, tags := [("level", "inner")] }

/-- Initial backend state: no active span, nothing connected. -/
def st0 : TraceState :=
  { scope := [], spans := [], connected := [], captured := [],
    effects := [], fresh := 10 }

/-- The full two-level run: outer enter, inner enter, inner `exited`
emission, outer `exited` emission. -/
def twoLevelRun : TraceState :=
  let s1 := begin_sentry_trace st0 outerData
  let s2 := begin_sentry_trace s1 innerData
  let s3 := (emitExited s2 innerData none).1
  (emitExited s3 outerData none).1

/-- The exit effects of a run, in order. -/
def exitEffects (st : TraceState) : List Effect :=
  st.effects.filter (fun e => match e with | Effect.exitSpan _ => true | _ => false)

/-! ## `init` (lines 73–154)

Process-wide module state and the initialization entry point.  The Sentry
credential URL and the sample rate come from explicit arguments or the
environment; `sentry_sdk.init` itself is external, so whether it throws is
a parameter of the model. -/

/-- The module's process-wide mutable state: the `_INITIALIZED` and
`_RAISES_EXCEPTIONS` flags, the `_LOGGER` slot (a logger identity, `none`
before any `init`), `sentry_logging.DEFAULT_EVENT_LEVEL`, the user set via
`set_user` and the configuration the backend was initialized with. -/
structure GlobalState where
  _INITIALIZED : Bool
  _RAISES_EXCEPTIONS : Bool
  _LOGGER : Option Nat
  defaultEventLevel : Nat
  sentryUser : Option String
  sentryConfig : Option (String × ℚ)
deriving DecidableEq, Repr

/-- The identity of the module's own `get_telemetry_logger()` logger. -/
def defaultLoggerId : Nat := 0

/-- `logging.CRITICAL`. -/
def CRITICAL : Nat := 50

/-- Arguments of `init` (the `integrations` list only feeds the backend
call and is not part of any claim). -/
structure InitArgs where
  sentry_dns : Option String
  sample_rate : Option ℚ
  raise_internal_exceptions : Bool
  logger : Option Nat
deriving DecidableEq, Repr

/-- `init()` with every argument left at its default. -/
def defaultInitArgs : InitArgs :=
  { sentry_dns := none, sample_rate := none,
    raise_internal_exceptions := false, logger := none }

/-- The environment variables `init` reads, pre-parsed: `SENTRY_DNS` and
`SENTRY_SAMPLE_RATE` (as the float value `float(...)` yields). -/
structure Env where
  sentryDns : Option String
  sentrySampleRate : Option ℚ
deriving DecidableEq, Repr

/-- How `init` returns. -/
inductive InitOutcome where
  | ok
  | returnedAfterWarning
  | returnedAfterInitError
  | raisedTelemetryError (msg : String)
  | reRaisedInternal
deriving DecidableEq, Repr

/-- Line 141: `sample_rate = sample_rate or
float(os.environ.get("SENTRY_SAMPLE_RATE", 1.0))`.  Python `or` takes the
right operand when `sample_rate` is `None` **or** any falsy number
(`0.0`). -/
def resolveSampleRate (arg : Option ℚ) (envRate : Option ℚ) : ℚ :=
  match arg with
  | none => envRate.getD 1
  | some r => if r = 0 then envRate.getD 1 else r

/-- Line 136: `sentry_dns = sentry_dns or os.environ["SENTRY_DNS"]` —
string truthiness, so an explicit empty string also falls back to the
environment; a missing variable is a `KeyError`. -/
def resolveDns (arg : Option String) (envDns : Option String) :
    Option String :=
  match arg with
  | none => envDns
  | some s => if s = "" then envDns else some s

/-- `init` (lines 73–154) as a state transformer: the new process-wide
state, the outcome, and the log records written.  Every step before the
`_INITIALIZED` check — logger resolution, `_RAISES_EXCEPTIONS := `
argument, `_LOGGER := ` logger, the event-level override and `set_user`
— runs unconditionally (lines 106–123). -/
def init (st : GlobalState) (a : InitArgs) (env : Env) (hostname : String)
    (sentryInitThrows : Bool) : GlobalState × InitOutcome × List LogRecord :=
  let logger := a.logger.getD defaultLoggerId
  let failedMsg := "Telemetry could not be initialized."
  let st := { st with
    _RAISES_EXCEPTIONS := a.raise_internal_exceptions,
    _LOGGER := some logger,
    defaultEventLevel := CRITICAL,
    sentryUser := some hostname }
  if st._INITIALIZED then
    let alreadyMsg := failedMsg ++ " Already initialized."
    if a.raise_internal_exceptions then
      (st, InitOutcome.raisedTelemetryError alreadyMsg, [])
    else
      (st, InitOutcome.returnedAfterWarning,
        [("warning", alreadyMsg ++ " Ingoring new initialization.")])
  else
    match resolveDns a.sentry_dns env.sentryDns with
    | none =>
      (st, InitOutcome.raisedTelemetryError (failedMsg ++ " No sentry DNS found!"),
        [])
    | some dns =>
      let rate := resolveSampleRate a.sample_rate env.sentrySampleRate
      if sentryInitThrows then
        let logs := [(("error" : String), failedMsg ++ " Internal sentry init error.")]
        if a.raise_internal_exceptions then
          (st, InitOutcome.reRaisedInternal, logs)
        else
          (st, InitOutcome.returnedAfterInitError, logs)
      else
        ({ st with _INITIALIZED := true, sentryConfig := some (dns, rate) },
          InitOutcome.ok, [])

/-- The terminal status of the span `sid`, when the span exists. -/
def spanStatus (st : TraceState) (sid : Nat) : Option (Option String) :=
  (findSpan st sid).map Span.status

/-! ## Concrete demonstration values -/

/-- State after the outer invocation entered. -/
def demoState1 : TraceState := begin_sentry_trace st0 outerData

/-- State after the inner (recursive) invocation entered as well. -/
def demoState2 : TraceState := begin_sentry_trace demoState1 innerData

/-- The root transaction the outer invocation opens on `st0`. -/
def rootSpanDemo : Span :=
  { span_id := 10, trace_id := 11, parent_span_id := none, op := "recurse",
    spanName := some "recurse", isTransaction := true, tags := [],
    status := none, finished := false }

/-- The child span the inner invocation opens on `demoState1`. -/
def innerSpan0 : Span :=
  { span_id := 12, trace_id := 11, parent_span_id := some 10, op := "recurse",
    spanName := none, isTransaction := false, tags := [], status := none,
    finished := false }

/-- An elevated event. -/
def elevDef : EventDef := { name := "elev", elevated := true }

/-- An invocation of the elevated event. -/
def elevData : EventData := { id := 3, event := elevDef, tags := [] }

/-- The finalizer armed for the inner invocation. -/
def innerFin : Finalizer := { enterId := 2, spanId := 12 }

/-- The finalizer armed for the outer invocation. -/
def outerFin : Finalizer := { enterId := 1, spanId := 10 }

/-- Recognizes a tag-write effect. -/
def isSetTag : Effect → Bool
  | Effect.setTag _ _ _ => true
  | _ => false

/-- Process-wide state after a successful strict-mode initialization. -/
def priorState : GlobalState :=
  { _INITIALIZED := true, _RAISES_EXCEPTIONS := true, _LOGGER := some 7,
    defaultEventLevel := 50, sentryUser := some "host-a",
    sentryConfig := some ("dns0", 1) }

/-- Process-wide state before any initialization. -/
def freshState : GlobalState :=
  { _INITIALIZED := false, _RAISES_EXCEPTIONS := false, _LOGGER := none,
    defaultEventLevel := 0, sentryUser := none, sentryConfig := none }

/-- An environment carrying a DNS and a 0.25 sample rate. -/
def demoEnv : Env :=
  { sentryDns := some "dns0", sentrySampleRate := some (1/4) }

/-- `init` arguments asking explicitly for a 0.0 sample rate. -/
def zeroRateArgs : InitArgs :=
  { sentry_dns := some "dns0", sample_rate := some 0,
    raise_internal_exceptions := false, logger := none }


/-! # Theorems -/

theorem find?_key_map_set_self (d : Tags) (k v : String)
    (h : d.any (fun p => p.1 = k)) :
    (d.map (fun p => if p.1 = k then (k, v) else p)).find?
      (fun p => decide (p.1 = k)) = some (k, v) := by
  induction d with
  | nil => simp at h
  | cons p d ih =>
    by_cases hp : p.1 = k
    · simp [hp]
    · simp only [List.any_cons, hp, decide_False, Bool.false_or] at h
      simp only [List.map_cons, if_neg hp]
      rw [List.find?_cons_of_neg _ (by simp [hp])]
      exact ih h

theorem find?_key_append_self (d : Tags) (k v : String)
    (h : ¬ d.any (fun p => p.1 = k)) :
    (d ++ [(k, v)]).find? (fun p => decide (p.1 = k)) = some (k, v) := by
  induction d with
  | nil => simp
  | cons p d ih =>
    simp only [List.any_cons, Bool.or_eq_true, decide_eq_true_eq] at h
    push_neg at h
    simp only [List.cons_append]
    rw [List.find?_cons_of_neg _ (by simp [h.1])]
    exact ih (by simp [h.2])

theorem find?_key_map_set_other (d : Tags) (k k' v : String) (hk : k ≠ k') :
    (d.map (fun p => if p.1 = k' then (k', v) else p)).find?
      (fun p => decide (p.1 = k)) = d.find? (fun p => decide (p.1 = k)) := by
  induction d with
  | nil => rfl
  | cons p d ih =>
    by_cases hp : p.1 = k'
    · simp only [List.map_cons, if_pos hp]
      rw [List.find?_cons_of_neg _ (by simp [Ne.symm hk]),
          List.find?_cons_of_neg _ (by simp [hp, Ne.symm hk])]
      exact ih
    · simp only [List.map_cons, if_neg hp]
      by_cases hq : p.1 = k
      · rw [List.find?_cons_of_pos _ (by simp [hq]),
            List.find?_cons_of_pos _ (by simp [hq])]
      · rw [List.find?_cons_of_neg _ (by simp [hq]),
            List.find?_cons_of_neg _ (by simp [hq])]
        exact ih

theorem find?_key_append_other (d : Tags) (k k' v : String) (hk : k ≠ k') :
    (d ++ [(k', v)]).find? (fun p => decide (p.1 = k))
      = d.find? (fun p => decide (p.1 = k)) := by
  induction d with
  | nil => simp [Ne.symm hk]
  | cons p d ih =>
    simp only [List.cons_append]
    by_cases hq : p.1 = k
    · rw [List.find?_cons_of_pos _ (by simp [hq]),
          List.find?_cons_of_pos _ (by simp [hq])]
    · rw [List.find?_cons_of_neg _ (by simp [hq]),
          List.find?_cons_of_neg _ (by simp [hq])]
      exact ih

/-- Writing a key always makes `get` of that key return the written value:
last-writer-wins per key. -/
theorem dictGet_dictSet_self (d : Tags) (k v : String) :
    dictGet (dictSet d k v) k = some v := by
  unfold dictGet dictSet
  by_cases h : d.any (fun p => p.1 = k)
  · rw [if_pos h, find?_key_map_set_self d k v h]; rfl
  · rw [if_neg h, find?_key_append_self d k v h]; rfl

/-- Writing one key never disturbs another key. -/
theorem dictGet_dictSet_ne (d : Tags) (k k' v : String) (hk : k ≠ k') :
    dictGet (dictSet d k' v) k = dictGet d k := by
  unfold dictGet dictSet
  by_cases h : d.any (fun p => p.1 = k')
  · rw [if_pos h, find?_key_map_set_other d k k' v hk]
  · rw [if_neg h, find?_key_append_other d k k' v hk]

theorem charDigit_digitChar (d : Nat) (h : d < 10) :
    charDigit (digitChar d) = some d := by
  interval_cases d <;> rfl

theorem toNat_digitChar (d : Nat) (h : d < 10) :
    (digitChar d).toNat = 48 + d := by
  interval_cases d <;> rfl

theorem digitChar_ne_minus (d : Nat) (h : d < 10) : digitChar d ≠ '-' := by
  intro he
  have : (digitChar d).toNat = ('-').toNat := by rw [he]
  rw [toNat_digitChar d h] at this
  have h45 : ('-').toNat = 45 := rfl
  omega

theorem digitChar_ne_plus (d : Nat) (h : d < 10) : digitChar d ≠ '+' := by
  intro he
  have : (digitChar d).toNat = ('+').toNat := by rw [he]
  rw [toNat_digitChar d h] at this
  have h43 : ('+').toNat = 43 := rfl
  omega

theorem charsToDigits_map_digitChar (ds : List Nat) (h : ∀ d ∈ ds, d < 10) :
    charsToDigits (ds.map digitChar) = some ds := by
  induction ds with
  | nil => rfl
  | cons d ds ih =>
    simp only [List.map_cons, charsToDigits]
    rw [charDigit_digitChar d (h d (by simp)), ih (fun x hx => h x (by simp [hx]))]

theorem foldl_digits_reverse (L : List Nat) :
    ∀ a : Nat, L.reverse.foldl (fun x d => 10 * x + d) a
      = a * 10 ^ L.length + Nat.ofDigits 10 L := by
  induction L with
  | nil => intro a; simp [Nat.ofDigits]
  | cons d L ih =>
    intro a
    simp only [List.reverse_cons, List.foldl_append, List.foldl_cons,
      List.foldl_nil, ih a, List.length_cons, Nat.ofDigits_cons]
    ring

theorem valMSF_digits_reverse (n : Nat) :
    valMSF ((Nat.digits 10 n).reverse) = n := by
  unfold valMSF
  rw [foldl_digits_reverse (Nat.digits 10 n) 0]
  simp [Nat.ofDigits_digits]

theorem pyIntOfString_natStr (n : Nat) :
    pyIntOfString (natStr n) = some (n : Int) := by
  by_cases h0 : n = 0
  · subst h0; rfl
  · have hdig : ∀ d ∈ (Nat.digits 10 n).reverse, d < 10 := by
      intro d hd
      exact Nat.digits_lt_base (by norm_num) (List.mem_reverse.mp hd)
    have hne : Nat.digits 10 n ≠ [] := Nat.digits_ne_nil_iff_ne_zero.mpr h0
    unfold natStr
    rw [if_neg h0]
    obtain ⟨d, L, hL⟩ : ∃ d L, (Nat.digits 10 n).reverse = d :: L := by
      cases hrev : (Nat.digits 10 n).reverse with
      | nil => exact absurd (by simpa using hrev) hne
      | cons d L => exact ⟨d, L, rfl⟩
    have hd10 : d < 10 := hdig d (by simp [hL])
    unfold pyIntOfString
    simp only [hL, List.map_cons]
    rw [if_neg (digitChar_ne_minus d hd10), if_neg (digitChar_ne_plus d hd10)]
    have : charsToDigits (digitChar d :: L.map digitChar) = some (d :: L) := by
      have := charsToDigits_map_digitChar (d :: L) (by rw [← hL]; exact hdig)
      simpa using this
    unfold parseDigitsNat
    simp only [this]
    have hv : valMSF (d :: L) = n := by
      have := valMSF_digits_reverse n
      rw [hL] at this
      exact this
    rw [hv]
    rfl

theorem pyIntOfString_pyStrOfInt_nonneg (i : Int) (h : 0 ≤ i) :
    pyIntOfString (pyStrOfInt i) = some i := by
  unfold pyStrOfInt
  rw [if_neg (by omega)]
  rw [pyIntOfString_natStr i.toNat]
  congr 1
  omega

theorem find?_update_self (l : List (Nat × Span)) (sid : Nat) (f : Span → Span) :
    (l.map (fun p => if p.1 = sid then (p.1, f p.2) else p)).find?
        (fun p => decide (p.1 = sid))
      = (l.find? (fun p => decide (p.1 = sid))).map (fun p => (p.1, f p.2)) := by
  induction l with
  | nil => rfl
  | cons p l ih =>
    by_cases hp : p.1 = sid
    · simp only [List.map_cons, if_pos hp]
      rw [List.find?_cons_of_pos _ (by simp [hp]),
          List.find?_cons_of_pos _ (by simp [hp])]
      rfl
    · simp only [List.map_cons, if_neg hp]
      rw [List.find?_cons_of_neg _ (by simp [hp]),
          List.find?_cons_of_neg _ (by simp [hp])]
      exact ih

theorem find?_update_other (l : List (Nat × Span)) (sid sid' : Nat)
    (f : Span → Span) (h : sid' ≠ sid) :
    (l.map (fun p => if p.1 = sid then (p.1, f p.2) else p)).find?
        (fun p => decide (p.1 = sid'))
      = l.find? (fun p => decide (p.1 = sid')) := by
  induction l with
  | nil => rfl
  | cons p l ih =>
    by_cases hp : p.1 = sid
    · simp only [List.map_cons, if_pos hp]
      rw [List.find?_cons_of_neg _ (by simp [hp, Ne.symm h]),
          List.find?_cons_of_neg _ (by simp [hp, Ne.symm h])]
      exact ih
    · simp only [List.map_cons, if_neg hp]
      by_cases hq : p.1 = sid'
      · rw [List.find?_cons_of_pos _ (by simp [hq]),
            List.find?_cons_of_pos _ (by simp [hq])]
      · rw [List.find?_cons_of_neg _ (by simp [hq]),
            List.find?_cons_of_neg _ (by simp [hq])]
        exact ih

theorem findSpan_updateSpan_self (st : TraceState) (sid : Nat) (f : Span → Span) :
    findSpan (updateSpan st sid f) sid = (findSpan st sid).map f := by
  unfold findSpan updateSpan
  rw [find?_update_self]
  cases st.spans.find? (fun p => decide (p.1 = sid)) <;> rfl

theorem findSpan_updateSpan_ne (st : TraceState) (sid sid' : Nat)
    (f : Span → Span) (h : sid' ≠ sid) :
    findSpan (updateSpan st sid f) sid' = findSpan st sid' := by
  unfold findSpan updateSpan
  rw [find?_update_other _ _ _ _ h]

theorem findSpan_logEffect (st : TraceState) (e : Effect) (sid : Nat) :
    findSpan (logEffect st e) sid = findSpan st sid := rfl

theorem flushTags_effects (st : TraceState) (sid : Nat) (l : Tags) :
    (flushTags st sid l).effects
      = st.effects ++ l.map (fun p => Effect.setTag sid p.1 p.2) := by
  induction l generalizing st with
  | nil => simp [flushTags]
  | cons p l ih =>
    show (flushTags (logEffect (updateSpan st sid _) _) sid l).effects = _
    rw [ih]
    simp [logEffect, updateSpan, List.append_assoc]

theorem flushTags_captured (st : TraceState) (sid : Nat) (l : Tags) :
    (flushTags st sid l).captured = st.captured := by
  induction l generalizing st with
  | nil => rfl
  | cons p l ih =>
    show (flushTags (logEffect (updateSpan st sid _) _) sid l).captured = _
    rw [ih]
    rfl

theorem flushTags_scope (st : TraceState) (sid : Nat) (l : Tags) :
    (flushTags st sid l).scope = st.scope := by
  induction l generalizing st with
  | nil => rfl
  | cons p l ih =>
    show (flushTags (logEffect (updateSpan st sid _) _) sid l).scope = _
    rw [ih]
    rfl

theorem flushTags_connected (st : TraceState) (sid : Nat) (l : Tags) :
    (flushTags st sid l).connected = st.connected := by
  induction l generalizing st with
  | nil => rfl
  | cons p l ih =>
    show (flushTags (logEffect (updateSpan st sid _) _) sid l).connected = _
    rw [ih]
    rfl

theorem findSpan_flushTags_self (st : TraceState) (sid : Nat) (l : Tags) :
    findSpan (flushTags st sid l) sid
      = (findSpan st sid).map
          (fun sp => { sp with tags := l.foldl (fun d p => dictSet d p.1 p.2) sp.tags }) := by
  induction l generalizing st with
  | nil =>
    cases h : findSpan st sid <;> simp [flushTags, h]
  | cons p l ih =>
    show findSpan (flushTags (logEffect (updateSpan st sid _) _) sid l) sid = _
    rw [ih, findSpan_logEffect, findSpan_updateSpan_self]
    cases h : findSpan st sid <;> simp [List.foldl_cons]

theorem findSpan_flushTags_ne (st : TraceState) (sid sid' : Nat) (l : Tags)
    (h : sid' ≠ sid) :
    findSpan (flushTags st sid l) sid' = findSpan st sid' := by
  induction l generalizing st with
  | nil => rfl
  | cons p l ih =>
    show findSpan (flushTags (logEffect (updateSpan st sid _) _) sid l) sid' = _
    rw [ih, findSpan_logEffect, findSpan_updateSpan_ne _ _ _ _ h]

/-! ## Lemmas about the `_finish` steps -/

theorem statusOrCapture_effects (st : TraceState) (sid : Nat)
    (exc : Option String) :
    (statusOrCapture st sid exc).effects
      = st.effects
        ++ (match exc with
            | none => [Effect.setStatus sid "ok"]
            | some e => [Effect.capturedException e]) := by
  cases exc <;> rfl

theorem statusOrCapture_captured (st : TraceState) (sid : Nat)
    (exc : Option String) :
    (statusOrCapture st sid exc).captured = st.captured ++ exc.toList := by
  cases exc <;> simp [statusOrCapture, logEffect, updateSpan, Option.toList]

theorem statusOrCapture_connected (st : TraceState) (sid : Nat)
    (exc : Option String) :
    (statusOrCapture st sid exc).connected = st.connected := by
  cases exc <;> rfl

theorem findSpan_statusOrCapture_self (st : TraceState) (sid : Nat)
    (exc : Option String) :
    findSpan (statusOrCapture st sid exc) sid
      = (findSpan st sid).map
          (fun sp =>
            { sp with
              status := match exc with | none => some "ok" | some _ => sp.status }) := by
  cases exc with
  | none =>
    show findSpan (logEffect (updateSpan st sid _) _) sid = _
    rw [findSpan_logEffect, findSpan_updateSpan_self]
  | some e =>
    show findSpan (logEffect _ _) sid = _
    rw [findSpan_logEffect]
    show findSpan { st with captured := st.captured ++ [e] } sid = _
    rw [show findSpan { st with captured := st.captured ++ [e] } sid
        = findSpan st sid from rfl]
    cases findSpan st sid <;> rfl

theorem findSpan_statusOrCapture_ne (st : TraceState) (sid sid' : Nat)
    (exc : Option String) (h : sid' ≠ sid) :
    findSpan (statusOrCapture st sid exc) sid' = findSpan st sid' := by
  cases exc with
  | none =>
    show findSpan (logEffect (updateSpan st sid _) _) sid' = _
    rw [findSpan_logEffect, findSpan_updateSpan_ne _ _ _ _ h]
  | some e => rfl

theorem exitSpanStep_effects (st : TraceState) (sid : Nat) :
    (exitSpanStep st sid).effects = st.effects ++ [Effect.exitSpan sid] := rfl

theorem exitSpanStep_captured (st : TraceState) (sid : Nat) :
    (exitSpanStep st sid).captured = st.captured := rfl

theorem exitSpanStep_connected (st : TraceState) (sid : Nat) :
    (exitSpanStep st sid).connected = st.connected := rfl

theorem findSpan_exitSpanStep_self (st : TraceState) (sid : Nat) :
    findSpan (exitSpanStep st sid) sid
      = (findSpan st sid).map (fun sp => { sp with finished := true }) := by
  show findSpan (logEffect _ _) sid = _
  rw [findSpan_logEffect]
  rw [show findSpan { updateSpan st sid (fun sp => { sp with finished := true }) with
        scope := (updateSpan st sid (fun sp => { sp with finished := true })).scope.erase sid } sid
      = findSpan (updateSpan st sid (fun sp => { sp with finished := true })) sid from rfl]
  rw [findSpan_updateSpan_self]

theorem findSpan_exitSpanStep_ne (st : TraceState) (sid sid' : Nat)
    (h : sid' ≠ sid) :
    findSpan (exitSpanStep st sid) sid' = findSpan st sid' := by
  show findSpan (logEffect _ _) sid' = _
  rw [findSpan_logEffect]
  rw [show findSpan { updateSpan st sid (fun sp => { sp with finished := true }) with
        scope := (updateSpan st sid (fun sp => { sp with finished := true })).scope.erase sid } sid'
      = findSpan (updateSpan st sid (fun sp => { sp with finished := true })) sid' from rfl]
  rw [findSpan_updateSpan_ne _ _ _ _ h]

theorem disconnectStep_effects (st : TraceState) (enterId : Nat) :
    (disconnectStep st enterId).effects
      = st.effects ++ [Effect.disconnected enterId] := rfl

theorem disconnectStep_captured (st : TraceState) (enterId : Nat) :
    (disconnectStep st enterId).captured = st.captured := rfl

theorem disconnectStep_connected (st : TraceState) (enterId : Nat) :
    (disconnectStep st enterId).connected
      = st.connected.filter (fun g => g.enterId != enterId) := rfl

theorem findSpan_disconnectStep (st : TraceState) (enterId sid : Nat) :
    findSpan (disconnectStep st enterId) sid = findSpan st sid := rfl

/-! ## Lemmas about `_finish` -/

theorem _finish_guard (st : TraceState) (fin : Finalizer) (ed : EventData)
    (exc : Option String) (h : fin.enterId ≠ ed.id) :
    _finish st fin ed exc = (st, exc) := by
  unfold _finish
  rw [if_pos h]

theorem _finish_exc (st : TraceState) (fin : Finalizer) (ed : EventData)
    (exc : Option String) :
    (_finish st fin ed exc).2 = exc := by
  unfold _finish
  by_cases h : fin.enterId ≠ ed.id
  · rw [if_pos h]
  · rw [if_neg h]

theorem _finish_matched (st : TraceState) (fin : Finalizer) (ed : EventData)
    (exc : Option String) (h : fin.enterId = ed.id) :
    _finish st fin ed exc
      = (disconnectStep
          (exitSpanStep
            (flushTags (statusOrCapture st fin.spanId exc) fin.spanId ed.tags)
            fin.spanId)
          fin.enterId, exc) := by
  unfold _finish
  rw [if_neg (not_not_intro h)]

theorem _finish_effects (st : TraceState) (fin : Finalizer) (ed : EventData)
    (exc : Option String) (h : fin.enterId = ed.id) :
    (_finish st fin ed exc).1.effects
      = st.effects
        ++ (match exc with
            | none => [Effect.setStatus fin.spanId "ok"]
            | some e => [Effect.capturedException e])
        ++ ed.tags.map (fun p => Effect.setTag fin.spanId p.1 p.2)
        ++ [Effect.exitSpan fin.spanId]
        ++ [Effect.disconnected fin.enterId] := by
  rw [_finish_matched st fin ed exc h]
  show (disconnectStep _ _).effects = _
  rw [disconnectStep_effects, exitSpanStep_effects, flushTags_effects,
      statusOrCapture_effects]

theorem _finish_captured (st : TraceState) (fin : Finalizer) (ed : EventData)
    (exc : Option String) (h : fin.enterId = ed.id) :
    (_finish st fin ed exc).1.captured = st.captured ++ exc.toList := by
  rw [_finish_matched st fin ed exc h]
  show (disconnectStep _ _).captured = _
  rw [disconnectStep_captured, exitSpanStep_captured, flushTags_captured,
      statusOrCapture_captured]

theorem _finish_connected (st : TraceState) (fin : Finalizer) (ed : EventData)
    (exc : Option String) (h : fin.enterId = ed.id) :
    (_finish st fin ed exc).1.connected
      = st.connected.filter (fun g => g.enterId != fin.enterId) := by
  rw [_finish_matched st fin ed exc h]
  show (disconnectStep _ _).connected = _
  rw [disconnectStep_connected, exitSpanStep_connected, flushTags_connected,
      statusOrCapture_connected]

theorem findSpan_finish_self (st : TraceState) (fin : Finalizer)
    (ed : EventData) (exc : Option String) (h : fin.enterId = ed.id) :
    findSpan (_finish st fin ed exc).1 fin.spanId
      = (findSpan st fin.spanId).map
          (fun sp =>
            { sp with
              status := match exc with | none => some "ok" | some _ => sp.status,
              tags := ed.tags.foldl (fun d p => dictSet d p.1 p.2) sp.tags,
              finished := true }) := by
  rw [_finish_matched st fin ed exc h]
  show findSpan (disconnectStep _ _) _ = _
  rw [findSpan_disconnectStep, findSpan_exitSpanStep_self,
      findSpan_flushTags_self, findSpan_statusOrCapture_self]
  cases findSpan st fin.spanId <;> cases exc <;> simp

theorem findSpan_finish_ne (st : TraceState) (fin : Finalizer)
    (ed : EventData) (exc : Option String) (sid' : Nat)
    (h : fin.enterId = ed.id) (hne : sid' ≠ fin.spanId) :
    findSpan (_finish st fin ed exc).1 sid' = findSpan st sid' := by
  rw [_finish_matched st fin ed exc h]
  show findSpan (disconnectStep _ _) _ = _
  rw [findSpan_disconnectStep, findSpan_exitSpanStep_ne _ _ _ hne,
      findSpan_flushTags_ne _ _ _ _ hne, findSpan_statusOrCapture_ne _ _ _ _ hne]
/-! ## Folding a tag dict into another dict -/

theorem dictGet_foldlSet_of_not_key (l : Tags) (k : String)
    (h : ∀ p ∈ l, p.1 ≠ k) :
    ∀ init : Tags,
      dictGet (l.foldl (fun d p => dictSet d p.1 p.2) init) k = dictGet init k := by
  induction l with
  | nil => intro init; rfl
  | cons p l ih =>
    intro init
    rw [List.foldl_cons, ih (fun q hq => h q (by simp [hq])),
        dictGet_dictSet_ne _ _ _ _ (Ne.symm (h p (by simp)))]

theorem dictGet_foldlSet_of_mem (l : Tags) (hnd : (l.map Prod.fst).Nodup)
    (k v : String) (hm : (k, v) ∈ l) :
    ∀ init : Tags,
      dictGet (l.foldl (fun d p => dictSet d p.1 p.2) init) k = some v := by
  induction l with
  | nil => simp at hm
  | cons p l ih =>
    intro init
    rw [List.map_cons, List.nodup_cons] at hnd
    rw [List.foldl_cons]
    rcases List.mem_cons.mp hm with hphead | htail
    · have hk : p.1 = k := by rw [← hphead]
      have hv : p.2 = v := by rw [← hphead]
      have hnot : ∀ q ∈ l, q.1 ≠ k := by
        intro q hq he
        have hmem : q.1 ∈ List.map Prod.fst l := List.mem_map_of_mem Prod.fst hq
        rw [he, ← hk] at hmem
        exact hnd.1 hmem
      rw [dictGet_foldlSet_of_not_key l k hnot, hk, hv, dictGet_dictSet_self]
    · exact ih hnd.2 htail _

/-! ## Counting lemma for `count_calls` -/

theorem count_calls_iter_counts (tagId : String) (tags0 : Tags)
    (h0 : dictGet tags0 tagId = none) :
    ∀ n : Nat, 1 ≤ n → ∃ t, count_calls_iter tagId n tags0 = .ok t ∧
      dictGet t tagId = some (pyStrOfInt (n : Int)) := by
  intro n
  induction n with
  | zero => intro h; omega
  | succ n ih =>
    intro _
    by_cases hn : n = 0
    · subst hn
      refine ⟨dictSet tags0 tagId (pyStrOfInt (0 + 1)), ?_, ?_⟩
      · show (match count_calls_iter tagId 0 tags0 with
          | .ok t => count_calls_step tagId (some t)
          | .error e => .error e) = _
        show count_calls_step tagId (some tags0) = _
        simp [count_calls_step, h0]
      · rw [dictGet_dictSet_self]
        norm_num
    · obtain ⟨t, ht, hv⟩ := ih (by omega)
      refine ⟨dictSet t tagId (pyStrOfInt ((n : Int) + 1)), ?_, ?_⟩
      · show (match count_calls_iter tagId n tags0 with
          | .ok t => count_calls_step tagId (some t)
          | .error e => .error e) = _
        rw [ht]
        simp [count_calls_step, hv,
          pyIntOfString_pyStrOfInt_nonneg ((n : Int)) (by positivity)]
      · rw [dictGet_dictSet_self]
        congr 2

/-! ## Helper lemmas for the claim theorems -/

theorem currentSpan_begin (st : TraceState) (ed : EventData) :
    currentSpan (begin_sentry_trace st ed)
      = some (newSpanFor (currentSpan st) ed.event st.fresh (st.fresh + 1)) := by
  unfold currentSpan begin_sentry_trace findSpan
  simp
  rfl

theorem filter_isSetTag_map (sid : Nat) (l : Tags) :
    (l.map (fun p => Effect.setTag sid p.1 p.2)).filter isSetTag
      = l.map (fun p => Effect.setTag sid p.1 p.2) := by
  induction l with
  | nil => rfl
  | cons p l ih => simp [List.filter_cons, isSetTag, ih]

theorem init_already (st : GlobalState) (a : InitArgs) (env : Env)
    (host : String) (sif : Bool) (h : st._INITIALIZED = true) :
    init st a env host sif
      = ({ st with
            _RAISES_EXCEPTIONS := a.raise_internal_exceptions,
            _LOGGER := some (a.logger.getD defaultLoggerId),
            defaultEventLevel := CRITICAL,
            sentryUser := some host },
         if a.raise_internal_exceptions then
           InitOutcome.raisedTelemetryError
             "Telemetry could not be initialized. Already initialized."
         else InitOutcome.returnedAfterWarning,
         if a.raise_internal_exceptions then []
         else [(("warning" : String),
           "Telemetry could not be initialized. Already initialized. Ingoring new initialization.")]) := by
  unfold init
  simp only [h, if_true]
  cases a.raise_internal_exceptions <;> simp

theorem init_fresh_ok (st : GlobalState) (a : InitArgs) (env : Env)
    (host : String) (dns : String) (hini : st._INITIALIZED = false)
    (hdns : resolveDns a.sentry_dns env.sentryDns = some dns) :
    init st a env host false
      = ({ st with
            _INITIALIZED := true,
            _RAISES_EXCEPTIONS := a.raise_internal_exceptions,
            _LOGGER := some (a.logger.getD defaultLoggerId),
            defaultEventLevel := CRITICAL,
            sentryUser := some host,
            sentryConfig := some (dns,
              resolveSampleRate a.sample_rate env.sentrySampleRate) },
         InitOutcome.ok, []) := by
  unfold init
  simp only [hini, hdns, if_false, Bool.false_eq_true]

/-! ## Claim theorems -/

/-- C1: on the "about to run" phase the span-selection policy of
`begin_sentry_trace` is three-way, evaluated in order: no active span ⇒ a
new root transaction named after the event; active span and `elevated` ⇒ a
new root transaction sharing the active span's `trace_id` with the active
span's `span_id` recorded as `parent_span_id`; otherwise ⇒ a child span of
the active span with the event's name as operation name.  In every case the
new span becomes the current active span. -/
theorem begin_sentry_trace_policy (st : TraceState) (ed : EventData) :
    (currentSpan st = none →
      ∃ sp, currentSpan (begin_sentry_trace st ed) = some sp ∧
        sp.isTransaction = true ∧ sp.parent_span_id = none ∧
        sp.op = ed.event.name ∧ sp.spanName = some ed.event.name) ∧
    (∀ cur, currentSpan st = some cur → ed.event.elevated = true →
      ∃ sp, currentSpan (begin_sentry_trace st ed) = some sp ∧
        sp.isTransaction = true ∧ sp.trace_id = cur.trace_id ∧
        sp.parent_span_id = some cur.span_id ∧ sp.op = ed.event.name) ∧
    (∀ cur, currentSpan st = some cur → ed.event.elevated = false →
      ∃ sp, currentSpan (begin_sentry_trace st ed) = some sp ∧
        sp.isTransaction = false ∧ sp.parent_span_id = some cur.span_id ∧
        sp.trace_id = cur.trace_id ∧ sp.op = ed.event.name) := by
  refine ⟨?_, ?_, ?_⟩
  · intro h
    refine ⟨_, currentSpan_begin st ed, ?_⟩
    rw [h]
    simp [newSpanFor]
  · intro cur hc he
    refine ⟨_, currentSpan_begin st ed, ?_⟩
    rw [hc]
    simp [newSpanFor, he]
  · intro cur hc he
    refine ⟨_, currentSpan_begin st ed, ?_⟩
    rw [hc]
    simp [newSpanFor, he]

/-- Witness for C1: the three policy branches evaluated on concrete
states — a fresh context, and the state holding the demo root span, with
an elevated and a non-elevated event. -/
theorem begin_sentry_trace_policy_witness :
    (∃ sp, currentSpan (begin_sentry_trace st0 outerData) = some sp ∧
      sp.isTransaction = true ∧ sp.parent_span_id = none ∧
      sp.op = "recurse" ∧ sp.spanName = some "recurse") ∧
    (∃ sp, currentSpan (begin_sentry_trace demoState1 elevData) = some sp ∧
      sp.isTransaction = true ∧ sp.trace_id = 11 ∧
      sp.parent_span_id = some 10 ∧ sp.op = "elev") ∧
    (∃ sp, currentSpan (begin_sentry_trace demoState1 innerData) = some sp ∧
      sp.isTransaction = false ∧ sp.parent_span_id = some 10 ∧
      sp.trace_id = 11 ∧ sp.op = "recurse") := by
  refine ⟨(begin_sentry_trace_policy st0 outerData).1 rfl, ?_, ?_⟩
  · exact (begin_sentry_trace_policy demoState1 elevData).2.1 rootSpanDemo rfl rfl
  · exact (begin_sentry_trace_policy demoState1 innerData).2.2 rootSpanDemo rfl rfl

/-- C2: a finalizer fired with a foreign invocation object returns
immediately with no side effects; fired with its own invocation it runs
and disconnects itself, so it can never fire again; consequently the
concrete two-level self-recursive run closes exactly two spans, the inner
one first, each finished and carrying only the tags set during its own
level. -/
theorem finish_exactly_once (st : TraceState) (fin : Finalizer)
    (ed : EventData) (exc : Option String) :
    (fin.enterId ≠ ed.id → _finish st fin ed exc = (st, exc)) ∧
    (fin.enterId = ed.id →
      (_finish st fin ed exc).1.connected
        = st.connected.filter (fun g => g.enterId != fin.enterId)) ∧
    exitEffects twoLevelRun = [Effect.exitSpan 12, Effect.exitSpan 10] ∧
    (∃ spI, findSpan twoLevelRun 12 = some spI ∧ spI.finished = true ∧
      spI.tags = [("level", "inner")]) ∧
    (∃ spO, findSpan twoLevelRun 10 = some spO ∧ spO.finished = true ∧
      spO.tags = [("level", "outer")]) := by
  refine ⟨_finish_guard st fin ed exc, _finish_connected st fin ed exc,
    rfl, ⟨_, rfl, rfl, rfl⟩, ⟨_, rfl, rfl, rfl⟩⟩

/-- Witness for C2: the other invocation's finalizer ignores the inner
exit, while the inner invocation's own finalizer fires and unsubscribes
itself. -/
theorem finish_exactly_once_witness :
    _finish demoState2 outerFin innerData none = (demoState2, none) ∧
    (_finish demoState2 innerFin innerData none).1.connected
      = demoState2.connected.filter (fun g => g.enterId != innerFin.enterId) := by
  exact ⟨(finish_exactly_once demoState2 outerFin innerData none).1 (by decide),
    (finish_exactly_once demoState2 innerFin innerData none).2.1 rfl⟩

/-- C3: in a matched finalizer run, the application exception is passed
through unchanged; when one is active it is captured exactly once and the
span's status is left untouched (in particular never set to "ok"); when
none is active the span status is set to "ok" and nothing is captured. -/
theorem finish_exception_outcome (st : TraceState) (fin : Finalizer)
    (ed : EventData) (exc : Option String) (sp : Span)
    (h : fin.enterId = ed.id) (hs : findSpan st fin.spanId = some sp) :
    (_finish st fin ed exc).2 = exc ∧
    (∀ e, exc = some e →
      (_finish st fin ed exc).1.captured = st.captured ++ [e] ∧
      (findSpan (_finish st fin ed exc).1 fin.spanId).map Span.status
        = some sp.status) ∧
    (exc = none →
      (_finish st fin ed exc).1.captured = st.captured ∧
      (findSpan (_finish st fin ed exc).1 fin.spanId).map Span.status
        = some (some "ok")) := by
  refine ⟨_finish_exc st fin ed exc, ?_, ?_⟩
  · rintro e rfl
    refine ⟨by rw [_finish_captured st fin ed _ h]; rfl, ?_⟩
    rw [findSpan_finish_self st fin ed _ h, hs]
    rfl
  · rintro rfl
    refine ⟨by rw [_finish_captured st fin ed _ h]; simp, ?_⟩
    rw [findSpan_finish_self st fin ed _ h, hs]
    rfl

/-- Witness for C3: the inner invocation's finalizer run on the concrete
two-invocation state, once with an active exception and once without. -/
theorem finish_exception_outcome_witness :
    (_finish demoState2 innerFin innerData (some "boom")).1.captured
      = demoState2.captured ++ ["boom"] ∧
    (findSpan (_finish demoState2 innerFin innerData (some "boom")).1 12).map
      Span.status = some none ∧
    (_finish demoState2 innerFin innerData none).1.captured
      = demoState2.captured ∧
    (findSpan (_finish demoState2 innerFin innerData none).1 12).map
      Span.status = some (some "ok") := by
  have h1 := (finish_exception_outcome demoState2 innerFin innerData
    (some "boom") innerSpan0 rfl rfl).2.1 "boom" rfl
  have h2 := (finish_exception_outcome demoState2 innerFin innerData
    none innerSpan0 rfl rfl).2.2 rfl
  exact ⟨h1.1, h1.2, h2.1, h2.2⟩

/-- C4: a matched finalizer run appends its backend operations in exactly
this order: the status-or-capture step first, then one tag write per tag
mapping entry, then the span close, then the unsubscription — so the span
is closed only after all tags are flushed and the outcome is set, and the
subscription is removed last. -/
theorem finish_ordering (st : TraceState) (fin : Finalizer) (ed : EventData)
    (exc : Option String) (h : fin.enterId = ed.id) :
    (_finish st fin ed exc).1.effects
      = st.effects
        ++ (match exc with
            | none => [Effect.setStatus fin.spanId "ok"]
            | some e => [Effect.capturedException e])
        ++ ed.tags.map (fun p => Effect.setTag fin.spanId p.1 p.2)
        ++ [Effect.exitSpan fin.spanId]
        ++ [Effect.disconnected fin.enterId] :=
  _finish_effects st fin ed exc h

/-- Witness for C4: the concrete effect order of the inner invocation's
finalizer run with an active exception. -/
theorem finish_ordering_witness :
    (_finish demoState2 innerFin innerData (some "boom")).1.effects
      = demoState2.effects
        ++ [Effect.capturedException "boom"]
        ++ [Effect.setTag 12 "level" "inner"]
        ++ [Effect.exitSpan 12]
        ++ [Effect.disconnected 2] :=
  finish_ordering demoState2 innerFin innerData (some "boom") rfl

/-- C5: a matched finalizer run copies every entry of the invocation's tag
mapping onto its span — afterwards each key of the mapping reads back its
value from the span's tags — the writes happening in the mapping's
insertion order, and tag writes follow last-writer-wins per key. -/
theorem finish_tag_flush (st : TraceState) (fin : Finalizer) (ed : EventData)
    (exc : Option String) (sp : Span)
    (h : fin.enterId = ed.id) (hs : findSpan st fin.spanId = some sp)
    (hnd : (ed.tags.map Prod.fst).Nodup) :
    (∃ sp', findSpan (_finish st fin ed exc).1 fin.spanId = some sp' ∧
      sp'.tags = ed.tags.foldl (fun d p => dictSet d p.1 p.2) sp.tags ∧
      ∀ k v, (k, v) ∈ ed.tags → dictGet sp'.tags k = some v) ∧
    ((_finish st fin ed exc).1.effects.drop st.effects.length).filter isSetTag
      = ed.tags.map (fun p => Effect.setTag fin.spanId p.1 p.2) ∧
    (∀ d k v, dictGet (dictSet d k v) k = some v) := by
  refine ⟨?_, ?_, fun d k v => dictGet_dictSet_self d k v⟩
  · have hfs := findSpan_finish_self st fin ed exc h
    rw [hs] at hfs
    refine ⟨_, hfs, rfl, ?_⟩
    intro k v hm
    exact dictGet_foldlSet_of_mem ed.tags hnd k v hm sp.tags
  · rw [_finish_effects st fin ed exc h]
    rw [show st.effects
          ++ (match exc with
              | none => [Effect.setStatus fin.spanId "ok"]
              | some e => [Effect.capturedException e])
          ++ ed.tags.map (fun p => Effect.setTag fin.spanId p.1 p.2)
          ++ [Effect.exitSpan fin.spanId]
          ++ [Effect.disconnected fin.enterId]
        = st.effects
          ++ ((match exc with
              | none => [Effect.setStatus fin.spanId "ok"]
              | some e => [Effect.capturedException e])
            ++ (ed.tags.map (fun p => Effect.setTag fin.spanId p.1 p.2)
              ++ ([Effect.exitSpan fin.spanId]
                ++ [Effect.disconnected fin.enterId]))) from by
      simp [List.append_assoc]]
    rw [List.drop_left]
    cases exc <;>
      simp [List.filter_append, isSetTag, filter_isSetTag_map]

/-- Witness for C5: the inner invocation's tag mapping is flushed onto its
span in the concrete two-invocation state. -/
theorem finish_tag_flush_witness :
    (∃ sp', findSpan (_finish demoState2 innerFin innerData none).1 12
        = some sp' ∧
      sp'.tags = [("level", "inner")] ∧
      ∀ k v, (k, v) ∈ innerData.tags → dictGet sp'.tags k = some v) ∧
    ((_finish demoState2 innerFin innerData none).1.effects.drop
        demoState2.effects.length).filter isSetTag
      = [Effect.setTag 12 "level" "inner"] ∧
    (∀ d k v, dictGet (dictSet d k v) k = some v) :=
  finish_tag_flush demoState2 innerFin innerData none innerSpan0 rfl rfl
    (by decide)

/-- C6: the `_telemetry` error boundary — when the wrapped body raises and
`_RAISES_EXCEPTIONS` is false, the error is logged at error level and
swallowed (the wrapper returns normally); when the flag is true the
original exception propagates unchanged. -/
theorem telemetry_error_boundary {α : Type} (raises : Bool)
    (funcName : String) (body : PyResult α) (e : String)
    (hb : body = PyResult.exc e) :
    (raises = false →
      _telemetry raises funcName body
        = (PyResult.ok none,
           [("error", "Internal telemetry function failed: " ++ funcName)])) ∧
    (raises = true →
      _telemetry raises funcName body = (PyResult.exc e, [])) := by
  subst hb
  constructor
  · rintro rfl; rfl
  · rintro rfl; rfl

/-- Witness for C6: both modes evaluated on a concrete raising body. -/
theorem telemetry_error_boundary_witness :
    _telemetry false "begin_sentry_trace" (PyResult.exc "boom" : PyResult Nat)
      = (PyResult.ok none,
         [("error", "Internal telemetry function failed: begin_sentry_trace")]) ∧
    _telemetry true "begin_sentry_trace" (PyResult.exc "boom" : PyResult Nat)
      = (PyResult.exc "boom", []) := by
  exact ⟨(telemetry_error_boundary false "begin_sentry_trace"
      (PyResult.exc "boom" : PyResult Nat) "boom" rfl).1 rfl,
    (telemetry_error_boundary true "begin_sentry_trace"
      (PyResult.exc "boom" : PyResult Nat) "boom" rfl).2 rfl⟩

/-- C7: contrary to the claim, a call of a `count_calls`-wrapped function
with no active span raises: `sentry_sdk.Hub.current.scope.span` is `None`
and line 48 evaluates `None._tags`, an `AttributeError`.  The theorem
evaluates the code at the failing input. -/
theorem count_calls_no_span_raises :
    count_calls_wrapped (call_count_tag_format "increment_func") none
        (0 : Nat)
      = Except.error
          (PyErr.attributeError "NoneType object has no attribute _tags") := rfl

/-- C8 counterexample: with the counter key holding the non-numeric value
"x", one call of the wrapped function raises `ValueError` from `int("x")`
instead of treating the value as 0 and writing "1". -/
theorem count_calls_non_numeric_raises :
    count_calls_iter (call_count_tag_format "f") 1
        [(call_count_tag_format "f", "x")]
      = Except.error
          (PyErr.valueError "invalid literal for int() with base 10") ∧
    ∀ t : Tags, count_calls_iter (call_count_tag_format "f") 1
        [(call_count_tag_format "f", "x")] ≠ Except.ok t := by
  refine ⟨rfl, ?_⟩
  intro t h
  rw [show count_calls_iter (call_count_tag_format "f") 1
        [(call_count_tag_format "f", "x")]
      = Except.error
          (PyErr.valueError "invalid literal for int() with base 10") from rfl]
    at h
  exact Except.noConfusion h

/-- C8 (amended): when the counter key is initially absent it defaults
to 0, and N calls with one active span leave the tag at the string value
str(N); each call returns the wrapped function's result unchanged.  (A
non-numeric existing value raises `ValueError` rather than counting
as 0.) -/
theorem count_calls_counting (tagId : String) (tags0 : Tags) (N : Nat)
    (h0 : dictGet tags0 tagId = none) (hN : 1 ≤ N) :
    (∃ t, count_calls_iter tagId N tags0 = Except.ok t ∧
      dictGet t tagId = some (pyStrOfInt (N : Int))) ∧
    (∀ (span : Option Tags) (t : Tags) (body : Nat),
      count_calls_step tagId span = Except.ok t →
      count_calls_wrapped tagId span body = Except.ok (t, body)) := by
  refine ⟨count_calls_iter_counts tagId tags0 h0 N hN, ?_⟩
  intro span t body hstep
  unfold count_calls_wrapped
  rw [hstep]
  rfl

/-- Witness for C8: three calls starting from an empty tag dict leave the
counter at "3". -/
theorem count_calls_counting_witness :
    ∃ t, count_calls_iter (call_count_tag_format "increment_func") 3 []
        = Except.ok t ∧
      dictGet t (call_count_tag_format "increment_func")
        = some (pyStrOfInt 3) :=
  (count_calls_counting (call_count_tag_format "increment_func") [] 3 rfl
    (by norm_num)).1

/-- C9 counterexample: a second `init()` with default arguments after a
successful strict-mode initialization does log a warning and return, but
it does not leave prior process-wide state unchanged: `_RAISES_EXCEPTIONS`
flips from true to false and `_LOGGER` is replaced, both before the
initialization check. -/
theorem init_double_clobbers_state :
    (init priorState defaultInitArgs demoEnv "host-a" false).2.1
      = InitOutcome.returnedAfterWarning ∧
    priorState._RAISES_EXCEPTIONS = true ∧
    (init priorState defaultInitArgs demoEnv "host-a" false).1._RAISES_EXCEPTIONS
      = false ∧
    priorState._LOGGER = some 7 ∧
    (init priorState defaultInitArgs demoEnv "host-a" false).1._LOGGER
      = some defaultLoggerId := by
  exact ⟨rfl, rfl, rfl, rfl, rfl⟩

/-- C9 (amended): when `init` runs on an already-initialized process it
never re-initializes the backend — with defaults it logs a warning and
returns, in strict mode it raises `TelemetryError` — but in both modes it
has already overwritten `_RAISES_EXCEPTIONS`, `_LOGGER` and the backend
user with the new call's arguments before the check. -/
theorem init_double_behavior (st : GlobalState) (a : InitArgs) (env : Env)
    (host : String) (sif : Bool) (h : st._INITIALIZED = true) :
    (a.raise_internal_exceptions = false →
      (init st a env host sif).2.1 = InitOutcome.returnedAfterWarning ∧
      (init st a env host sif).2.2
        = [(("warning" : String),
            "Telemetry could not be initialized. Already initialized. Ingoring new initialization.")]) ∧
    (a.raise_internal_exceptions = true →
      (init st a env host sif).2.1
        = InitOutcome.raisedTelemetryError
            "Telemetry could not be initialized. Already initialized.") ∧
    (init st a env host sif).1.sentryConfig = st.sentryConfig ∧
    (init st a env host sif).1._INITIALIZED = st._INITIALIZED ∧
    (init st a env host sif).1._RAISES_EXCEPTIONS
      = a.raise_internal_exceptions ∧
    (init st a env host sif).1._LOGGER = some (a.logger.getD defaultLoggerId) ∧
    (init st a env host sif).1.sentryUser = some host := by
  rw [init_already st a env host sif h]
  refine ⟨?_, ?_, rfl, by rw [h], rfl, rfl, rfl⟩
  · rintro hra
    rw [hra]
    exact ⟨rfl, rfl⟩
  · rintro hra
    rw [hra]
    rfl

/-- Witness for C9: the amended behaviour evaluated on the concrete
previously-initialized state, in both modes. -/
theorem init_double_behavior_witness :
    (init priorState defaultInitArgs demoEnv "host-a" false).2.2
      = [(("warning" : String),
          "Telemetry could not be initialized. Already initialized. Ingoring new initialization.")] ∧
    (init priorState
        { defaultInitArgs with raise_internal_exceptions := true }
        demoEnv "host-a" false).2.1
      = InitOutcome.raisedTelemetryError
          "Telemetry could not be initialized. Already initialized." ∧
    (init priorState defaultInitArgs demoEnv "host-a" false).1.sentryConfig
      = priorState.sentryConfig := by
  have h1 := init_double_behavior priorState defaultInitArgs demoEnv
    "host-a" false rfl
  have h2 := init_double_behavior priorState
    { defaultInitArgs with raise_internal_exceptions := true } demoEnv
    "host-a" false rfl
  exact ⟨(h1.1 rfl).2, h2.2.1 rfl, h1.2.2.1⟩

/-- C10: an explicit `sample_rate=0.0` is falsy for Python `or`, so line
141 treats it exactly like an unset argument: the rate passed to the
backend is resolved from `SENTRY_SAMPLE_RATE`, or 1.0 when that variable
is unset, and (unless the variable itself says 0) is never 0. -/
theorem init_sample_rate_zero (st : GlobalState) (a : InitArgs) (env : Env)
    (host : String) (dns : String)
    (h0 : a.sample_rate = some 0) (hini : st._INITIALIZED = false)
    (hdns : resolveDns a.sentry_dns env.sentryDns = some dns) :
    resolveSampleRate a.sample_rate env.sentrySampleRate
      = resolveSampleRate none env.sentrySampleRate ∧
    resolveSampleRate none env.sentrySampleRate
      = env.sentrySampleRate.getD 1 ∧
    (env.sentrySampleRate ≠ some 0 →
      resolveSampleRate a.sample_rate env.sentrySampleRate ≠ 0) ∧
    (init st a env host false).1.sentryConfig
      = some (dns, env.sentrySampleRate.getD 1) := by
  have hres : resolveSampleRate a.sample_rate env.sentrySampleRate
      = env.sentrySampleRate.getD 1 := by
    rw [h0]
    simp [resolveSampleRate]
  refine ⟨by rw [hres]; rfl, rfl, ?_, ?_⟩
  · intro hz
    rw [hres]
    cases he : env.sentrySampleRate with
    | none => norm_num
    | some r =>
      rw [he] at hz
      simp only [Option.getD]
      intro hc
      exact hz (by rw [hc])
  · rw [init_fresh_ok st a env host dns hini hdns, hres]

/-- Witness for C10: an explicit zero rate with the environment set to
0.25 resolves to 0.25, and that is what the backend receives. -/
theorem init_sample_rate_zero_witness :
    resolveSampleRate (some 0) (some (1/4 : ℚ))
      = resolveSampleRate none (some (1/4 : ℚ)) ∧
    resolveSampleRate (some 0) (some (1/4 : ℚ)) ≠ 0 ∧
    (init freshState zeroRateArgs demoEnv "host-a" false).1.sentryConfig
      = some ("dns0", (1/4 : ℚ)) := by
  have h := init_sample_rate_zero freshState zeroRateArgs demoEnv "host-a"
    "dns0" rfl rfl rfl
  exact ⟨h.1, h.2.2.1 (by norm_num [demoEnv]), h.2.2.2⟩

end ObserveSentry
